import Mathlib

/-!
Shallow embedding of the seeker proxy-stream core:
`src/seeker/src/proxy_tcp_stream.rs` (ProxyTcpStream: connect, metadata,
poll_read / poll_write / poll_flush / poll_close) and `src/src/main.rs`
(relay dispatch loop over accepted virtual sockets).

External collaborators (DNS client, the five backend connect functions,
the transport poll implementations) are modelled as oracle environments;
the code of this repository is translated directly.
-/

namespace Seeker

/-- Kinds of std::io errors that the translated code distinguishes. -/
inductive IoErrKind where
  | brokenPipe
  | invalidData
  | other (code : Nat)
deriving DecidableEq, Repr

/-- Model of std::io::Error: a kind plus a message. -/
structure IoErr where
  kind : IoErrKind
  msg : String
deriving DecidableEq, Repr

/-- Model of std::task::Poll. -/
inductive Poll (α : Type) where
  | ready (a : α)
  | pending
deriving DecidableEq, Repr

/-- Model of a resolved socket address (value type). -/
structure SocketAddr where
  ip : Nat
  port : Nat
deriving DecidableEq, Repr

/-- Model of config::Address: hostname+port or an already resolved socket
address. -/
inductive Address where
  | domain (host : String) (port : Nat)
  | socket (sa : SocketAddr)
deriving DecidableEq, Repr

/-- Address::hostname: Some for a domain address, None for a socket
address. -/
def Address.hostname : Address → Option String
  | .domain h _ => some h
  | .socket _ => none

/-- Model of config::ServerProtocol (the four proxy protocols matched in
connect; Direct mode is the absence of a config). -/
inductive ServerProtocol where
  | Http
  | Https
  | Socks5
  | Shadowsocks
deriving DecidableEq, Repr

/-- Model of config::ServerConfig: protocol kind, backend address, optional
credentials, optional cipher method and key. -/
structure ServerConfig where
  addr : Address
  protocol : ServerProtocol
  username : Option String
  password : Option String
  method : Option String
  key : Option String
deriving DecidableEq, Repr

/-- Opaque payload standing for an async_std TcpStream value. -/
structure TcpStream where
  id : Nat
deriving DecidableEq, Repr

/-- Opaque payload standing for a Socks5TcpStream value. -/
structure Socks5TcpStream where
  id : Nat
deriving DecidableEq, Repr

/-- Opaque payload standing for an HttpProxyTcpStream value. -/
structure HttpProxyTcpStream where
  id : Nat
deriving DecidableEq, Repr

/-- Opaque payload standing for an HttpsProxyTcpStream value. -/
structure HttpsProxyTcpStream where
  id : Nat
deriving DecidableEq, Repr

/-- Opaque payload standing for an SSTcpStream value. -/
structure SSTcpStream where
  id : Nat
deriving DecidableEq, Repr

/-- The closed protocol-tagged union ProxyTcpStreamInner of
proxy_tcp_stream.rs. -/
inductive ProxyTcpStreamInner where
  | Direct (conn : TcpStream)
  | Socks5 (conn : Socks5TcpStream)
  | HttpProxy (conn : HttpProxyTcpStream)
  | HttpsProxy (conn : HttpsProxyTcpStream)
  | Shadowsocks (conn : SSTcpStream)
deriving DecidableEq, Repr

/-- Modelled from the spec: crate::traffic::Traffic is not under src/; the
spec describes it as two shared monotonically increasing byte counters
(bytes sent, bytes received). -/
structure Traffic where
  sent : Nat
  received : Nat
deriving DecidableEq, Repr

/-- Modelled from the spec: Traffic::recv adds the received byte count. -/
def Traffic.recv (t : Traffic) (n : Nat) : Traffic :=
  { t with received := t.received + n }

/-- Modelled from the spec: Traffic::send adds the sent byte count. -/
def Traffic.send (t : Traffic) (n : Nat) : Traffic :=
  { t with sent := t.sent + n }

/-- Modelled from the spec: Traffic::default is a fresh zeroed counter
pair. -/
def Traffic.default : Traffic :=
  { sent := 0, received := 0 }

/-- The ProxyTcpStream struct: transport union, shared alive flag, the
original destination address, the optional config, and the Traffic
handle. The shared cells (Arc of AtomicBool, Traffic) are modelled as
plain fields of the state record. -/
structure ProxyTcpStream where
  inner : ProxyTcpStreamInner
  alive : Bool
  remote_addr : Address
  config : Option ServerConfig
  traffic : Traffic
deriving DecidableEq, Repr

/-- ProxyConnection::shutdown for ProxyTcpStream: store false into the
alive flag. -/
def ProxyTcpStream.shutdown (s : ProxyTcpStream) : ProxyTcpStream :=
  { s with alive := false }

/-- ProxyConnection::has_config: compare the stored config with the given
one by value. -/
def ProxyTcpStream.has_config (s : ProxyTcpStream) (c : Option ServerConfig) : Bool :=
  s.config == c

/-- ProxyConnection::config accessor. -/
def ProxyTcpStream.getConfig (s : ProxyTcpStream) : Option ServerConfig :=
  s.config

/-- ProxyConnection::remote_addr: always Some of the stored address. -/
def ProxyTcpStream.remoteAddr (s : ProxyTcpStream) : Option Address :=
  some s.remote_addr

/-- ProxyConnection::traffic: returns the shared Traffic handle. -/
def ProxyTcpStream.getTraffic (s : ProxyTcpStream) : Traffic :=
  s.traffic

/-- The poll operations each transport variant supports; an environment
supplies one implementation per opaque transport type. Read and write
yield a transferred byte count; flush and close yield unit. -/
structure TransportOps (τ : Type) where
  poll_read : τ → Nat → Poll (Except IoErr Nat)
  poll_write : τ → List Nat → Poll (Except IoErr Nat)
  poll_flush : τ → Poll (Except IoErr Unit)
  poll_close : τ → Poll (Except IoErr Unit)

/-- Oracle environment giving the behaviour of the five underlying
transports. -/
structure TransportEnv where
  direct : TransportOps TcpStream
  socks5 : TransportOps Socks5TcpStream
  http : TransportOps HttpProxyTcpStream
  https : TransportOps HttpsProxyTcpStream
  ss : TransportOps SSTcpStream

/-- Which operation was invoked on the underlying transport. -/
inductive TransportCall where
  | read
  | write
  | flush
  | close
deriving DecidableEq, Repr

/-- Result of one poll operation on a ProxyTcpStream: the poll result, the
post state, and the list of operations invoked on the underlying
transport. -/
structure PollOutcome (α : Type) where
  result : Poll (Except IoErr α)
  stream : ProxyTcpStream
  calls : List TransportCall
deriving Repr

/-- The error built by the liveness guard of every I/O operation. -/
def notAliveErr : IoErr :=
  { kind := .brokenPipe, msg := "ProxyTcpStream not alive" }

/-- Read::poll_read for ProxyTcpStream: guard on alive, dispatch on the
populated variant, and on a ready successful read of size bytes record
them on the received counter. -/
def ProxyTcpStream.poll_read (env : TransportEnv) (s : ProxyTcpStream)
    (bufLen : Nat) : PollOutcome Nat :=
  if !s.alive then
    { result := .ready (.error notAliveErr), stream := s, calls := [] }
  else
    let r :=
      match s.inner with
      | .Direct conn => env.direct.poll_read conn bufLen
      | .Socks5 conn => env.socks5.poll_read conn bufLen
      | .Shadowsocks conn => env.ss.poll_read conn bufLen
      | .HttpProxy conn => env.http.poll_read conn bufLen
      | .HttpsProxy conn => env.https.poll_read conn bufLen
    match r with
    | .pending => { result := .pending, stream := s, calls := [.read] }
    | .ready (.error e) =>
        { result := .ready (.error e), stream := s, calls := [.read] }
    | .ready (.ok size) =>
        { result := .ready (.ok size)
          stream := { s with traffic := s.traffic.recv size }
          calls := [.read] }

/-- Write::poll_write for ProxyTcpStream: guard on alive, dispatch on the
populated variant, and on a ready successful write of size bytes record
them on the sent counter. -/
def ProxyTcpStream.poll_write (env : TransportEnv) (s : ProxyTcpStream)
    (buf : List Nat) : PollOutcome Nat :=
  if !s.alive then
    { result := .ready (.error notAliveErr), stream := s, calls := [] }
  else
    let r :=
      match s.inner with
      | .Direct conn => env.direct.poll_write conn buf
      | .Socks5 conn => env.socks5.poll_write conn buf
      | .Shadowsocks conn => env.ss.poll_write conn buf
      | .HttpProxy conn => env.http.poll_write conn buf
      | .HttpsProxy conn => env.https.poll_write conn buf
    match r with
    | .pending => { result := .pending, stream := s, calls := [.write] }
    | .ready (.error e) =>
        { result := .ready (.error e), stream := s, calls := [.write] }
    | .ready (.ok size) =>
        { result := .ready (.ok size)
          stream := { s with traffic := s.traffic.send size }
          calls := [.write] }

/-- Write::poll_flush for ProxyTcpStream: guard on alive, then forward to
the populated variant; no traffic accounting. -/
def ProxyTcpStream.poll_flush (env : TransportEnv) (s : ProxyTcpStream) :
    PollOutcome Unit :=
  if !s.alive then
    { result := .ready (.error notAliveErr), stream := s, calls := [] }
  else
    let r :=
      match s.inner with
      | .Direct conn => env.direct.poll_flush conn
      | .Socks5 conn => env.socks5.poll_flush conn
      | .Shadowsocks conn => env.ss.poll_flush conn
      | .HttpProxy conn => env.http.poll_flush conn
      | .HttpsProxy conn => env.https.poll_flush conn
    { result := r, stream := s, calls := [.flush] }

/-- Write::poll_close for ProxyTcpStream: guard on alive, then forward to
the populated variant; no traffic accounting. -/
def ProxyTcpStream.poll_close (env : TransportEnv) (s : ProxyTcpStream) :
    PollOutcome Unit :=
  if !s.alive then
    { result := .ready (.error notAliveErr), stream := s, calls := [] }
  else
    let r :=
      match s.inner with
      | .Direct conn => env.direct.poll_close conn
      | .Socks5 conn => env.socks5.poll_close conn
      | .Shadowsocks conn => env.ss.poll_close conn
      | .HttpProxy conn => env.http.poll_close conn
      | .HttpsProxy conn => env.https.poll_close conn
    { result := r, stream := s, calls := [.close] }

/-- Observable steps of connect: a DNS lookup through the DnsClient, or a
call of one of the five backend connect functions. -/
inductive ConnectEvent where
  | lookup (a : Address)
  | directConnect (sa : SocketAddr)
  | socks5Connect (sa : SocketAddr) (remote : Address)
  | httpConnect (sa : SocketAddr) (remote : Address)
  | httpsConnect (sa : SocketAddr) (hostname : String) (remote : Address)
  | ssConnect (sa : SocketAddr) (remote : Address) (method : String) (key : String)
deriving DecidableEq, Repr

/-- Oracle environment for connect: the DnsClient lookup_address contract
and the five external backend connect functions. -/
structure ConnectEnv where
  lookup_address : Address → Except IoErr SocketAddr
  tcp_connect : SocketAddr → Except IoErr TcpStream
  socks5_connect : SocketAddr → Address → Except IoErr Socks5TcpStream
  http_connect : SocketAddr → Address → Option String → Option String →
    Except IoErr HttpProxyTcpStream
  https_connect : SocketAddr → String → Address → Option String → Option String →
    Except IoErr HttpsProxyTcpStream
  ss_connect : SocketAddr → Address → String → String → Except IoErr SSTcpStream

/-- The configuration error raised in the Https branch when the backend
address carries no hostname. -/
def httpsNoHostnameErr : IoErr :=
  { kind := .invalidData
    msg := "proxy domain must not be empty for https protocol." }

/-- The configuration error raised in the Shadowsocks branch when method or
key is absent. -/
def ssNoMethodKeyErr : IoErr :=
  { kind := .invalidData
    msg := "method and password must be set for ss protocol." }

/-- ProxyTcpStream::connect, translated branch by branch in source order,
returning the result together with the trace of external calls it
performed. -/
def ProxyTcpStream.connect (env : ConnectEnv) (remote_addr : Address)
    (config : Option ServerConfig) :
    Except IoErr ProxyTcpStream × List ConnectEvent :=
  let finish : ProxyTcpStreamInner → Except IoErr ProxyTcpStream := fun inner =>
    .ok { inner := inner
          alive := true
          remote_addr := remote_addr
          config := config
          traffic := Traffic.default }
  match config with
  | some cfg =>
    match cfg.protocol with
    | .Https =>
      match env.lookup_address cfg.addr with
      | .error e => (.error e, [.lookup cfg.addr])
      | .ok proxy_socket_addr =>
        match cfg.addr.hostname with
        | none => (.error httpsNoHostnameErr, [.lookup cfg.addr])
        | some host =>
          match env.https_connect proxy_socket_addr host remote_addr
              cfg.username cfg.password with
          | .error e =>
              (.error e,
               [.lookup cfg.addr, .httpsConnect proxy_socket_addr host remote_addr])
          | .ok conn =>
              (finish (.HttpsProxy conn),
               [.lookup cfg.addr, .httpsConnect proxy_socket_addr host remote_addr])
    | .Http =>
      match env.lookup_address cfg.addr with
      | .error e => (.error e, [.lookup cfg.addr])
      | .ok proxy_socket_addr =>
        match env.http_connect proxy_socket_addr remote_addr
            cfg.username cfg.password with
        | .error e =>
            (.error e, [.lookup cfg.addr, .httpConnect proxy_socket_addr remote_addr])
        | .ok conn =>
            (finish (.HttpProxy conn),
             [.lookup cfg.addr, .httpConnect proxy_socket_addr remote_addr])
    | .Socks5 =>
      match env.lookup_address cfg.addr with
      | .error e => (.error e, [.lookup cfg.addr])
      | .ok proxy_socket_addr =>
        match env.socks5_connect proxy_socket_addr remote_addr with
        | .error e =>
            (.error e, [.lookup cfg.addr, .socks5Connect proxy_socket_addr remote_addr])
        | .ok conn =>
            (finish (.Socks5 conn),
             [.lookup cfg.addr, .socks5Connect proxy_socket_addr remote_addr])
    | .Shadowsocks =>
      match env.lookup_address cfg.addr with
      | .error e => (.error e, [.lookup cfg.addr])
      | .ok proxy_socket_addr =>
        match cfg.method, cfg.key with
        | some m, some k =>
          match env.ss_connect proxy_socket_addr remote_addr m k with
          | .error e =>
              (.error e,
               [.lookup cfg.addr, .ssConnect proxy_socket_addr remote_addr m k])
          | .ok conn =>
              (finish (.Shadowsocks conn),
               [.lookup cfg.addr, .ssConnect proxy_socket_addr remote_addr m k])
        | _, _ => (.error ssNoMethodKeyErr, [.lookup cfg.addr])
  | none =>
    match env.lookup_address remote_addr with
    | .error e => (.error e, [.lookup remote_addr])
    | .ok socket_addr =>
      match env.tcp_connect socket_addr with
      | .error e => (.error e, [.lookup remote_addr, .directConnect socket_addr])
      | .ok conn =>
          (finish (.Direct conn), [.lookup remote_addr, .directConnect socket_addr])

/-- Does the populated transport variant match the requested protocol
selection (None meaning Direct)? -/
def variantMatches : Option ServerConfig → ProxyTcpStreamInner → Bool
  | none, .Direct _ => true
  | some cfg, inner =>
    match cfg.protocol, inner with
    | .Https, .HttpsProxy _ => true
    | .Http, .HttpProxy _ => true
    | .Socks5, .Socks5 _ => true
    | .Shadowsocks, .Shadowsocks _ => true
    | _, _ => false
  | none, _ => false

/-- An accepted virtual socket of the relay dispatch loop in main.rs: a TCP
socket carrying the byte stream its read half will yield, or a UDP socket
carrying one inbound datagram payload and its originating address. -/
inductive TunSocket where
  | Tcp (readData : List Nat)
  | Udp (payload : List Nat) (srcAddr : SocketAddr)
deriving DecidableEq, Repr

/-- The two halves a TCP virtual socket splits into, plus the two
endpoints a proxied relay would use. -/
inductive RelayEnd where
  | socketReadHalf
  | socketWriteHalf
  | proxyStreamEnd
deriving DecidableEq, Repr

/-- Observable steps of one relay task. -/
inductive RelayEvent where
  | establishProxyStream
  | copy (src dst : RelayEnd) (data : List Nat)
  | recvDgram (payload : List Nat) (srcAddr : SocketAddr)
  | forwardDgram (payload : List Nat) (dest : Address)
  | sendDgram (payload : List Nat) (dest : SocketAddr)
deriving DecidableEq, Repr

/-- Modelled from the spec: TunSocket::recv_dgram is code of this
repository outside src/ (crate::tun); a datagram receive into a buffer of
the given length reads min(payload length, buffer length) bytes into the
front of the buffer and reports that size together with the originating
address. -/
def recv_dgram (payload : List Nat) (buf : List Nat) : List Nat × Nat :=
  let size := min payload.length buf.length
  (payload.take size ++ buf.drop size, size)

/-- The Udp branch of the relay task in main.rs: allocate a 1000-byte zero
buffer, receive one datagram, truncate the buffer to the reported size,
and send it back to the originating address. Returns the datagram payload
sent and its destination. -/
def udp_relay (payload : List Nat) (srcAddr : SocketAddr) :
    List Nat × SocketAddr :=
  let buf := List.replicate 1000 0
  let r := recv_dgram payload buf
  let buf := r.1.take r.2
  (buf, srcAddr)

/-- The body of the per-socket task spawned by the dispatch loop in
main.rs, as its trace of relay events: the Tcp branch splits the socket
and copies its own read half into its own write half; the Udp branch is
udp_relay. -/
def relay_task : TunSocket → List RelayEvent
  | .Tcp readData =>
      [.copy .socketReadHalf .socketWriteHalf readData]
  | .Udp payload srcAddr =>
      let sent := udp_relay payload srcAddr
      [.recvDgram payload srcAddr, .sendDgram sent.1 sent.2]

/-- Following the claim wording (not the source): the TCP relay
establishes a ProxyStream and runs a bidirectional copy between the
socket halves and that stream. -/
def tcpRelayClaim (s : TunSocket) : Prop :=
  RelayEvent.establishProxyStream ∈ relay_task s ∧
  (∃ d, RelayEvent.copy .socketReadHalf .proxyStreamEnd d ∈ relay_task s) ∧
  (∃ d, RelayEvent.copy .proxyStreamEnd .socketWriteHalf d ∈ relay_task s)

/-- Following the claim wording (not the source): the UDP relay forwards
the received payload to the resolved destination and sends the awaited
response back to the originating address. -/
def udpRelayClaim (s : TunSocket) : Prop :=
  ∃ p dest, RelayEvent.forwardDgram p dest ∈ relay_task s

/-- Transport behaviour in which every operation completes at once: a read
fills the whole buffer and a write accepts the whole buffer. -/
def okOps (τ : Type) : TransportOps τ :=
  { poll_read := fun _ n => .ready (.ok n)
    poll_write := fun _ b => .ready (.ok b.length)
    poll_flush := fun _ => .ready (.ok ())
    poll_close := fun _ => .ready (.ok ()) }

/-- Sample transport environment where every variant completes at once. -/
def sampleEnv : TransportEnv :=
  { direct := okOps TcpStream
    socks5 := okOps Socks5TcpStream
    http := okOps HttpProxyTcpStream
    https := okOps HttpsProxyTcpStream
    ss := okOps SSTcpStream }

/-- Sample live Direct-mode stream with zeroed counters. -/
def sampleStream : ProxyTcpStream :=
  { inner := .Direct { id := 0 }
    alive := true
    remote_addr := .domain "example.com" 80
    config := none
    traffic := Traffic.default }

/-- Frame of poll_read: only the traffic field of the stream can change. -/
theorem poll_read_frame (env : TransportEnv) (s : ProxyTcpStream)
    (bufLen : Nat) :
    (s.poll_read env bufLen).stream.inner = s.inner ∧
    (s.poll_read env bufLen).stream.alive = s.alive ∧
    (s.poll_read env bufLen).stream.remote_addr = s.remote_addr ∧
    (s.poll_read env bufLen).stream.config = s.config := by
  obtain ⟨inner, alive, ra, cfg, tr⟩ := s
  cases alive
  · simp [ProxyTcpStream.poll_read]
  · cases inner <;>
      · simp only [ProxyTcpStream.poll_read]
        split
        · simp_all
        · split <;> simp_all

/-- Frame of poll_write: only the traffic field of the stream can
change. -/
theorem poll_write_frame (env : TransportEnv) (s : ProxyTcpStream)
    (buf : List Nat) :
    (s.poll_write env buf).stream.inner = s.inner ∧
    (s.poll_write env buf).stream.alive = s.alive ∧
    (s.poll_write env buf).stream.remote_addr = s.remote_addr ∧
    (s.poll_write env buf).stream.config = s.config := by
  obtain ⟨inner, alive, ra, cfg, tr⟩ := s
  cases alive
  · simp [ProxyTcpStream.poll_write]
  · cases inner <;>
      · simp only [ProxyTcpStream.poll_write]
        split
        · simp_all
        · split <;> simp_all

/-- poll_flush never changes the stream state. -/
theorem poll_flush_frame (env : TransportEnv) (s : ProxyTcpStream) :
    (s.poll_flush env).stream = s := by
  obtain ⟨inner, alive, ra, cfg, tr⟩ := s
  cases alive <;> cases inner <;> simp [ProxyTcpStream.poll_flush]

/-- poll_close never changes the stream state. -/
theorem poll_close_frame (env : TransportEnv) (s : ProxyTcpStream) :
    (s.poll_close env).stream = s := by
  obtain ⟨inner, alive, ra, cfg, tr⟩ := s
  cases alive <;> cases inner <;> simp [ProxyTcpStream.poll_close]

/-- On a ready successful read the post traffic is exactly the old traffic
with the read size added on the received side. -/
theorem poll_read_traffic_ok (env : TransportEnv) (s : ProxyTcpStream)
    (bufLen n : Nat)
    (h : (s.poll_read env bufLen).result = .ready (.ok n)) :
    (s.poll_read env bufLen).stream.traffic = s.traffic.recv n := by
  obtain ⟨inner, alive, ra, cfg, tr⟩ := s
  cases alive
  · simp [ProxyTcpStream.poll_read] at h
  · cases inner <;>
      · simp only [ProxyTcpStream.poll_read] at h ⊢
        split at h
        · simp_all
        · split at h <;> simp_all

/-- On a pending or erroring read the traffic is unchanged. -/
theorem poll_read_traffic_not_ok (env : TransportEnv) (s : ProxyTcpStream)
    (bufLen : Nat)
    (h : ∀ n, (s.poll_read env bufLen).result ≠ .ready (.ok n)) :
    (s.poll_read env bufLen).stream.traffic = s.traffic := by
  obtain ⟨inner, alive, ra, cfg, tr⟩ := s
  cases alive
  · simp [ProxyTcpStream.poll_read]
  · cases inner <;>
      · simp only [ProxyTcpStream.poll_read] at h ⊢
        split at h
        · simp_all
        · split at h <;> simp_all

/-- On a ready successful write the post traffic is exactly the old
traffic with the written size added on the sent side. -/
theorem poll_write_traffic_ok (env : TransportEnv) (s : ProxyTcpStream)
    (buf : List Nat) (n : Nat)
    (h : (s.poll_write env buf).result = .ready (.ok n)) :
    (s.poll_write env buf).stream.traffic = s.traffic.send n := by
  obtain ⟨inner, alive, ra, cfg, tr⟩ := s
  cases alive
  · simp [ProxyTcpStream.poll_write] at h
  · cases inner <;>
      · simp only [ProxyTcpStream.poll_write] at h ⊢
        split at h
        · simp_all
        · split at h <;> simp_all

/-- On a pending or erroring write the traffic is unchanged. -/
theorem poll_write_traffic_not_ok (env : TransportEnv) (s : ProxyTcpStream)
    (buf : List Nat)
    (h : ∀ n, (s.poll_write env buf).result ≠ .ready (.ok n)) :
    (s.poll_write env buf).stream.traffic = s.traffic := by
  obtain ⟨inner, alive, ra, cfg, tr⟩ := s
  cases alive
  · simp [ProxyTcpStream.poll_write]
  · cases inner <;>
      · simp only [ProxyTcpStream.poll_write] at h ⊢
        split at h
        · simp_all
        · split at h <;> simp_all

/-- C1: after shutdown() has been called on a ProxyTcpStream, whichever
transport variant it holds, every subsequently issued read, write, flush,
or close returns a ready broken-pipe error (the "ProxyTcpStream not
alive" error, whose kind is broken pipe), invokes no operation on the
underlying transport, and leaves the stream state unchanged, so the same
holds for every later operation as well. -/
theorem shutdown_gates_all_io (env : TransportEnv) (s : ProxyTcpStream)
    (bufLen : Nat) (buf : List Nat) :
    (s.shutdown.poll_read env bufLen).result = .ready (.error notAliveErr) ∧
    (s.shutdown.poll_read env bufLen).calls = [] ∧
    (s.shutdown.poll_read env bufLen).stream = s.shutdown ∧
    (s.shutdown.poll_write env buf).result = .ready (.error notAliveErr) ∧
    (s.shutdown.poll_write env buf).calls = [] ∧
    (s.shutdown.poll_write env buf).stream = s.shutdown ∧
    (s.shutdown.poll_flush env).result = .ready (.error notAliveErr) ∧
    (s.shutdown.poll_flush env).calls = [] ∧
    (s.shutdown.poll_flush env).stream = s.shutdown ∧
    (s.shutdown.poll_close env).result = .ready (.error notAliveErr) ∧
    (s.shutdown.poll_close env).calls = [] ∧
    (s.shutdown.poll_close env).stream = s.shutdown ∧
    notAliveErr.kind = .brokenPipe :=
  ⟨rfl, rfl, rfl, rfl, rfl, rfl, rfl, rfl, rfl, rfl, rfl, rfl, rfl⟩

/-- C3: a ready successful read of n bytes increases the received counter
by exactly n and leaves the sent counter unchanged; a ready successful
write of n bytes increases the sent counter by exactly n and leaves the
received counter unchanged; flush and close never change the traffic; a
pending or erroring read or write changes neither counter. -/
theorem traffic_accounting (env : TransportEnv) (s : ProxyTcpStream)
    (bufLen : Nat) (buf : List Nat) (n : Nat) :
    ((s.poll_read env bufLen).result = .ready (.ok n) →
      (s.poll_read env bufLen).stream.traffic.received =
        s.traffic.received + n ∧
      (s.poll_read env bufLen).stream.traffic.sent = s.traffic.sent) ∧
    ((s.poll_write env buf).result = .ready (.ok n) →
      (s.poll_write env buf).stream.traffic.sent = s.traffic.sent + n ∧
      (s.poll_write env buf).stream.traffic.received =
        s.traffic.received) ∧
    (s.poll_flush env).stream.traffic = s.traffic ∧
    (s.poll_close env).stream.traffic = s.traffic ∧
    ((∀ m, (s.poll_read env bufLen).result ≠ .ready (.ok m)) →
      (s.poll_read env bufLen).stream.traffic = s.traffic) ∧
    ((∀ m, (s.poll_write env buf).result ≠ .ready (.ok m)) →
      (s.poll_write env buf).stream.traffic = s.traffic) := by
  refine ⟨fun h => ?_, fun h => ?_, ?_, ?_, ?_, ?_⟩
  · rw [poll_read_traffic_ok env s bufLen n h]
    exact ⟨rfl, rfl⟩
  · rw [poll_write_traffic_ok env s buf n h]
    exact ⟨rfl, rfl⟩
  · rw [poll_flush_frame]
  · rw [poll_close_frame]
  · exact poll_read_traffic_not_ok env s bufLen
  · exact poll_write_traffic_not_ok env s buf

/-- Witness for C3 at a concrete live Direct stream and an
always-succeeding transport environment: a 4-byte read accounts 4 received
bytes and a 3-byte write accounts 3 sent bytes. -/
theorem traffic_accounting_witness :
    ((sampleStream.poll_read sampleEnv 4).stream.traffic.received =
      sampleStream.traffic.received + 4 ∧
     (sampleStream.poll_read sampleEnv 4).stream.traffic.sent =
      sampleStream.traffic.sent) ∧
    ((sampleStream.poll_write sampleEnv [1, 2, 3]).stream.traffic.sent =
      sampleStream.traffic.sent + 3 ∧
     (sampleStream.poll_write sampleEnv [1, 2, 3]).stream.traffic.received =
      sampleStream.traffic.received) :=
  ⟨(traffic_accounting sampleEnv sampleStream 4 [1, 2, 3] 4).1 rfl,
   ((traffic_accounting sampleEnv sampleStream 4 [1, 2, 3] 3).2).1 rfl⟩

/-- C4: has_config returns true exactly when the stored config equals the
given optional config by value, the stored None of a Direct stream
matching the given None included. -/
theorem has_config_iff (s : ProxyTcpStream) (c : Option ServerConfig) :
    s.has_config c = true ↔ s.config = c := by
  simp [ProxyTcpStream.has_config]

/-- C5: shutdown is idempotent, produces a dead flag, and is one-way: no
operation of the type ever changes the alive flag except shutdown, which
only sets it to false, so a false flag can never go back to true. -/
theorem shutdown_idempotent_one_way (env : TransportEnv)
    (s : ProxyTcpStream) (bufLen : Nat) (buf : List Nat) :
    s.shutdown.shutdown = s.shutdown ∧
    s.shutdown.alive = false ∧
    (s.poll_read env bufLen).stream.alive = s.alive ∧
    (s.poll_write env buf).stream.alive = s.alive ∧
    (s.poll_flush env).stream.alive = s.alive ∧
    (s.poll_close env).stream.alive = s.alive := by
  refine ⟨rfl, rfl, (poll_read_frame env s bufLen).2.1,
    (poll_write_frame env s buf).2.1, ?_, ?_⟩
  · rw [poll_flush_frame]
  · rw [poll_close_frame]

/-- Sample destination address. -/
def remoteAddr0 : Address := .domain "example.com" 443

/-- Connect environment in which DNS and all five backends succeed. -/
def allOkEnv : ConnectEnv :=
  { lookup_address := fun _ => .ok { ip := 1, port := 2 }
    tcp_connect := fun _ => .ok { id := 7 }
    socks5_connect := fun _ _ => .ok { id := 8 }
    http_connect := fun _ _ _ _ => .ok { id := 9 }
    https_connect := fun _ _ _ _ _ => .ok { id := 10 }
    ss_connect := fun _ _ _ _ => .ok { id := 11 } }

/-- The error of the failing DNS client below. -/
def dnsFailErr : IoErr := { kind := .other 0, msg := "dns lookup failed" }

/-- Connect environment whose DNS lookup always fails. -/
def dnsFailEnv : ConnectEnv :=
  { allOkEnv with lookup_address := fun _ => .error dnsFailErr }

/-- Shadowsocks config with both method and key present. -/
def ssCfgFull : ServerConfig :=
  { addr := .domain "proxy.example" 8388
    protocol := .Shadowsocks
    username := none
    password := none
    method := some "chacha20"
    key := some "secret" }

/-- Shadowsocks config with method and key both unset. -/
def ssCfgNoKey : ServerConfig :=
  { addr := .domain "proxy.example" 8388
    protocol := .Shadowsocks
    username := none
    password := none
    method := none
    key := none }

/-- Https config whose backend address carries no hostname. -/
def httpsCfgNoHost : ServerConfig :=
  { addr := .socket { ip := 5, port := 443 }
    protocol := .Https
    username := none
    password := none
    method := none
    key := none }

/-- The stream built by a successful Shadowsocks connect in allOkEnv. -/
def ssStream0 : ProxyTcpStream :=
  { inner := .Shadowsocks { id := 11 }
    alive := true
    remote_addr := remoteAddr0
    config := some ssCfgFull
    traffic := Traffic.default }

/-- C6: for each of the five protocol selections (None meaning Direct), a
successful connect returns a stream whose inner union holds exactly the
variant matching the requested protocol, with alive true, remote_addr the
requested destination, config the supplied config, and a fresh zeroed
Traffic pair. -/
theorem connect_success_fields (env : ConnectEnv) (addr : Address)
    (cfg : Option ServerConfig) (s : ProxyTcpStream)
    (h : (ProxyTcpStream.connect env addr cfg).1 = .ok s) :
    variantMatches cfg s.inner = true ∧ s.alive = true ∧
    s.remote_addr = addr ∧ s.config = cfg ∧ s.traffic = Traffic.default := by
  rcases cfg with _ | ⟨caddr, proto, user, pass, meth, key⟩
  · simp only [ProxyTcpStream.connect] at h
    split at h
    · simp at h
    · split at h
      · simp at h
      · injection h with h
        subst h
        exact ⟨rfl, rfl, rfl, rfl, rfl⟩
  · cases proto
    · simp only [ProxyTcpStream.connect] at h
      split at h
      · simp at h
      · split at h
        · simp at h
        · injection h with h
          subst h
          exact ⟨rfl, rfl, rfl, rfl, rfl⟩
    · simp only [ProxyTcpStream.connect] at h
      split at h
      · simp at h
      · split at h
        · simp at h
        · split at h
          · simp at h
          · injection h with h
            subst h
            exact ⟨rfl, rfl, rfl, rfl, rfl⟩
    · simp only [ProxyTcpStream.connect] at h
      split at h
      · simp at h
      · split at h
        · simp at h
        · injection h with h
          subst h
          exact ⟨rfl, rfl, rfl, rfl, rfl⟩
    · simp only [ProxyTcpStream.connect] at h
      split at h
      · simp at h
      · split at h
        · split at h
          · simp at h
          · injection h with h
            subst h
            exact ⟨rfl, rfl, rfl, rfl, rfl⟩
        · simp at h

/-- Witness for C6: the successful Shadowsocks connect in the
all-succeeding environment yields exactly the expected stream fields. -/
theorem connect_success_fields_witness :
    variantMatches (some ssCfgFull) ssStream0.inner = true ∧
    ssStream0.alive = true ∧
    ssStream0.remote_addr = remoteAddr0 ∧
    ssStream0.config = some ssCfgFull ∧
    ssStream0.traffic = Traffic.default :=
  connect_success_fields allOkEnv remoteAddr0 (some ssCfgFull) ssStream0 rfl

/-- C2 counterexample: for a Shadowsocks config with method and key both
unset, and likewise for an Https config without hostname, connect does
invoke DnsClient.lookup_address (the event is in the trace), and with a
failing DNS client it returns the DNS error, which is not an invalid-data
configuration error. -/
theorem connect_config_check_after_dns_cex :
    (ProxyTcpStream.connect dnsFailEnv remoteAddr0 (some ssCfgNoKey)).2 =
      [.lookup ssCfgNoKey.addr] ∧
    (ProxyTcpStream.connect dnsFailEnv remoteAddr0 (some ssCfgNoKey)).1 =
      .error dnsFailErr ∧
    (ProxyTcpStream.connect dnsFailEnv remoteAddr0 (some httpsCfgNoHost)).2 =
      [.lookup httpsCfgNoHost.addr] ∧
    (ProxyTcpStream.connect dnsFailEnv remoteAddr0 (some httpsCfgNoHost)).1 =
      .error dnsFailErr ∧
    dnsFailErr.kind ≠ IoErrKind.invalidData :=
  ⟨rfl, rfl, rfl, rfl, by decide⟩

/-- C2 amended: for an Https config without hostname and for a Shadowsocks
config missing method or key, connect first resolves the backend address
through DnsClient.lookup_address; when that lookup succeeds, connect
fails with the corresponding invalid-data configuration error and the
trace shows only the lookup, so no backend connect function is ever
invoked. -/
theorem connect_invalid_config_errors (env : ConnectEnv) (addr : Address)
    (cfg : ServerConfig) (sa : SocketAddr)
    (hl : env.lookup_address cfg.addr = .ok sa) :
    (cfg.protocol = .Https → cfg.addr.hostname = none →
      (ProxyTcpStream.connect env addr (some cfg)).1 =
        .error httpsNoHostnameErr ∧
      (ProxyTcpStream.connect env addr (some cfg)).2 = [.lookup cfg.addr]) ∧
    (cfg.protocol = .Shadowsocks → (cfg.method = none ∨ cfg.key = none) →
      (ProxyTcpStream.connect env addr (some cfg)).1 =
        .error ssNoMethodKeyErr ∧
      (ProxyTcpStream.connect env addr (some cfg)).2 = [.lookup cfg.addr]) ∧
    httpsNoHostnameErr.kind = .invalidData ∧
    ssNoMethodKeyErr.kind = .invalidData := by
  obtain ⟨caddr, proto, user, pass, meth, key⟩ := cfg
  refine ⟨fun hp hh => ?_, fun hp hmk => ?_, rfl, rfl⟩
  · subst hp
    simp only [ProxyTcpStream.connect, hl] at *
    simp only [hh]
    exact ⟨trivial, trivial⟩
  · subst hp
    rcases hmk with h | h
    · subst h
      cases key <;>
        · simp only [ProxyTcpStream.connect, hl] at *
          exact ⟨trivial, trivial⟩
    · subst h
      cases meth <;>
        · simp only [ProxyTcpStream.connect, hl] at *
          exact ⟨trivial, trivial⟩

/-- Witness for C2 amended: with the all-succeeding DNS client and the
Shadowsocks config missing method and key, connect returns the
invalid-data configuration error and its trace is the lookup alone. -/
theorem connect_invalid_config_errors_witness :
    (ProxyTcpStream.connect allOkEnv remoteAddr0 (some ssCfgNoKey)).1 =
      .error ssNoMethodKeyErr ∧
    (ProxyTcpStream.connect allOkEnv remoteAddr0 (some ssCfgNoKey)).2 =
      [.lookup ssCfgNoKey.addr] :=
  (connect_invalid_config_errors allOkEnv remoteAddr0 ssCfgNoKey
      { ip := 1, port := 2 } rfl).2.1 rfl (Or.inl rfl)

/-- The payload the UDP relay sends back is the first
min(length, 1000) bytes of the received payload. -/
theorem udp_relay_fst (p : List Nat) (a : SocketAddr) :
    (udp_relay p a).1 = p.take (min p.length 1000) := by
  have hlen : (p.take (min p.length 1000)).length = min p.length 1000 := by
    simp only [List.length_take]
    omega
  simp only [udp_relay, recv_dgram, List.length_replicate]
  rw [List.take_left' hlen]

/-- The UDP relay sends its reply to the originating address. -/
theorem udp_relay_snd (p : List Nat) (a : SocketAddr) :
    (udp_relay p a).2 = a := rfl

/-- C7 counterexample: for the accepted TCP virtual socket carrying bytes
[1, 2, 3], the relay task establishes no ProxyStream, so it cannot run a
bidirectional copy between the socket halves and one. -/
theorem tcp_relay_claim_cex : ¬ tcpRelayClaim (.Tcp [1, 2, 3]) := by
  intro h
  have h1 := h.1
  simp [tcpRelayClaim, relay_task] at h1

/-- C7 amended: for every accepted TCP virtual socket, the relay task
splits it into read and write halves and runs a single unidirectional
copy from the socket read half back into the same socket write half (an
echo); it establishes no ProxyStream and copies nothing between the
socket and a ProxyStream; the task ends with that one copy, which stops
at end-of-stream or error. -/
theorem tcp_relay_echo (d : List Nat) :
    relay_task (.Tcp d) =
      [.copy .socketReadHalf .socketWriteHalf d] ∧
    RelayEvent.establishProxyStream ∉ relay_task (.Tcp d) ∧
    (∀ d2, RelayEvent.copy .socketReadHalf .proxyStreamEnd d2 ∉
      relay_task (.Tcp d)) ∧
    (∀ d2, RelayEvent.copy .proxyStreamEnd .socketWriteHalf d2 ∉
      relay_task (.Tcp d)) := by
  refine ⟨rfl, ?_, ?_, ?_⟩ <;> simp [relay_task]

/-- C8 counterexample: for the accepted UDP virtual socket carrying
payload [9] from source address (3, 4), the relay forwards nothing to any
resolved destination: it only receives once and sends straight back. -/
theorem udp_relay_claim_cex :
    ¬ udpRelayClaim (.Udp [9] { ip := 3, port := 4 }) := by
  rintro ⟨p, dest, hmem⟩
  simp [udpRelayClaim, relay_task] at hmem

/-- C8 amended: for every accepted UDP virtual socket, the relay performs
exactly one receive and sends the received payload itself, truncated to
the 1000-byte buffer, straight back to the originating address; it
forwards nothing to any resolved destination and keeps no session
state. -/
theorem udp_relay_single_echo (p : List Nat) (a : SocketAddr) :
    relay_task (.Udp p a) =
      [.recvDgram p a, .sendDgram (p.take (min p.length 1000)) a] ∧
    (∀ q dest, RelayEvent.forwardDgram q dest ∉ relay_task (.Udp p a)) := by
  constructor
  · simp [relay_task, udp_relay_fst, udp_relay_snd]
  · intro q dest
    simp [relay_task]

/-- C10: the UDP relay reply is the received payload truncated to the
1000-byte receive buffer: it is the first min(length, 1000) bytes, hence
never longer than 1000 bytes, and a payload longer than 1000 bytes is
silently cut to exactly its first 1000 bytes. -/
theorem udp_relay_truncation (p : List Nat) (a : SocketAddr) :
    (udp_relay p a).1.length ≤ 1000 ∧
    (udp_relay p a).1 = p.take (min p.length 1000) ∧
    (1000 < p.length →
      (udp_relay p a).1 = p.take 1000 ∧
      (udp_relay p a).1.length = 1000) := by
  refine ⟨?_, udp_relay_fst p a, fun h => ⟨?_, ?_⟩⟩
  · rw [udp_relay_fst]
    simp only [List.length_take]
    omega
  · rw [udp_relay_fst]
    congr 1
    omega
  · rw [udp_relay_fst]
    simp only [List.length_take]
    omega

/-- Witness for C10: a 1001-byte payload is truncated to exactly its first
1000 bytes. -/
theorem udp_relay_truncation_witness :
    1000 < (List.replicate 1001 7).length ∧
    (udp_relay (List.replicate 1001 7) { ip := 1, port := 2 }).1 =
      (List.replicate 1001 7).take 1000 ∧
    (udp_relay (List.replicate 1001 7) { ip := 1, port := 2 }).1.length =
      1000 :=
  ⟨by simp only [List.length_replicate]; omega,
   ((udp_relay_truncation (List.replicate 1001 7)
      { ip := 1, port := 2 }).2.2
        (by simp only [List.length_replicate]; omega)).1,
   ((udp_relay_truncation (List.replicate 1001 7)
      { ip := 1, port := 2 }).2.2
        (by simp only [List.length_replicate]; omega)).2⟩

/-- C9: shutdown modifies only the alive flag: the inner transport value,
the remote address, the config, and both traffic counters are unchanged
by a shutdown call. -/
theorem shutdown_frame (s : ProxyTcpStream) :
    s.shutdown.inner = s.inner ∧
    s.shutdown.remote_addr = s.remote_addr ∧
    s.shutdown.config = s.config ∧
    s.shutdown.traffic.sent = s.traffic.sent ∧
    s.shutdown.traffic.received = s.traffic.received :=
  ⟨rfl, rfl, rfl, rfl, rfl⟩

end Seeker
